import Mathlib

/-!
Shallow embedding of the ndn-js core under verification:
`src/js/publisher-id.js` (the publisher-identity codec) and
`src/js/security/verification-helpers.js` (the signature verifier).

JavaScript exceptions are modelled with an explicit `Except JsErr` channel;
mutation of `this` is modelled by returning the updated structure; the
external decoder, encoder and cryptographic capabilities are modelled as
function-valued records, exactly as wide as the interface the source
consumes.
-/

set_option autoImplicit false

namespace NdnJs

/-- Exceptions the JavaScript code can raise: a plain Error with its message,
a ContentDecodingException, a ReferenceError raised when an undefined
identifier is evaluated, and a TypeError. -/
inductive JsErr where
  | error (msg : String)
  | contentDecodingException (msg : String)
  | referenceError (msg : String)
  | typeError (msg : String)
deriving DecidableEq

/-- Modelled from the spec: the protocol-wide wire-tag registry
(`NDNProtocolDTags`, required from `util/ndn-protoco-id-tags.js`, which is
not under src/) assigns each publisher-identity variant a distinct numeric
tag; tags are globally unique and ordered. -/
def NDNProtocolDTags.PublisherPublicKeyDigest : Int := 59

def NDNProtocolDTags.PublisherCertificateDigest : Int := 60

def NDNProtocolDTags.PublisherIssuerKeyDigest : Int := 61

def NDNProtocolDTags.PublisherIssuerCertificateDigest : Int := 62

/-- The decoder capability consumed by the codec (spec section 6): a
non-consuming lookahead `peekDTag` and a payload read
`readBinaryDTagElement` that returns the bytes or null. -/
structure BinaryXMLDecoder where
  peekDTag : Int → Bool
  readBinaryDTagElement : Int → Option (List Nat)

/-- The encoder capability consumed by the codec: the list of tagged binary
elements written so far. -/
structure BinaryXMLEncoder where
  out : List (Int × List Nat)
deriving DecidableEq

/-- `encoder.writeDTagElement(tag, bytes)` appends one tagged binary
element. -/
def BinaryXMLEncoder.writeDTagElement (e : BinaryXMLEncoder) (tag : Int)
    (bytes : List Nat) : BinaryXMLEncoder :=
  ⟨e.out ++ [(tag, bytes)]⟩

/-- The `PublisherType` constructor: four registry constants copied onto the
object plus the `Tag` field holding the given tag. -/
structure PublisherType where
  KEY : Int
  CERTIFICATE : Int
  ISSUER_KEY : Int
  ISSUER_CERTIFICATE : Int
  Tag : Int
deriving DecidableEq

/-- `new PublisherType(tag)` from publisher-id.js. -/
def PublisherType.new (tag : Int) : PublisherType :=
  { KEY := NDNProtocolDTags.PublisherPublicKeyDigest
    CERTIFICATE := NDNProtocolDTags.PublisherCertificateDigest
    ISSUER_KEY := NDNProtocolDTags.PublisherIssuerKeyDigest
    ISSUER_CERTIFICATE := NDNProtocolDTags.PublisherIssuerCertificateDigest
    Tag := tag }

/-- The `PublisherID` object: `publisherID` holds the digest bytes (null
until assigned) and `publisherType` the variant tag object (null until
assigned). -/
structure PublisherID where
  publisherID : Option (List Nat)
  publisherType : Option PublisherType
deriving DecidableEq

/-- `new PublisherID()`: both fields start null. -/
def PublisherID.new : PublisherID := ⟨none, none⟩

/-- `PublisherID.peekAndGetNextDTag(decoder)`: probe the four identifier
tags in the fixed source order and return the first whose peek succeeds,
or -1 when none does. -/
def PublisherID.peekAndGetNextDTag (decoder : BinaryXMLDecoder) : Int :=
  if decoder.peekDTag NDNProtocolDTags.PublisherPublicKeyDigest then
    NDNProtocolDTags.PublisherPublicKeyDigest
  else if decoder.peekDTag NDNProtocolDTags.PublisherCertificateDigest then
    NDNProtocolDTags.PublisherCertificateDigest
  else if decoder.peekDTag NDNProtocolDTags.PublisherIssuerKeyDigest then
    NDNProtocolDTags.PublisherIssuerKeyDigest
  else if decoder.peekDTag NDNProtocolDTags.PublisherIssuerCertificateDigest then
    NDNProtocolDTags.PublisherIssuerCertificateDigest
  else (-1)

/-- `PublisherID.peek(decoder)`: whether the next element is one of the four
identifier tags. -/
def PublisherID.peek (decoder : BinaryXMLDecoder) : Bool :=
  0 ≤ PublisherID.peekAndGetNextDTag decoder

/-- The fixed probing order of the four identifier tags, as written in
`peekAndGetNextDTag`. -/
def publisherIDProbeOrder : List Int :=
  [NDNProtocolDTags.PublisherPublicKeyDigest,
   NDNProtocolDTags.PublisherCertificateDigest,
   NDNProtocolDTags.PublisherIssuerKeyDigest,
   NDNProtocolDTags.PublisherIssuerCertificateDigest]

/-- `PublisherID.prototype.from_ndnb(decoder)`: peek the tag, assign
`this.publisherType` from it, throw on the sentinel, otherwise read the
payload into `this.publisherID`, throwing a ContentDecodingException when
the read returns null. The updated object is returned together with the
exception channel. -/
def PublisherID.from_ndnb (self : PublisherID) (decoder : BinaryXMLDecoder) :
    PublisherID × Except JsErr Unit :=
  let nextTag := PublisherID.peekAndGetNextDTag decoder
  let self := { self with publisherType := some (PublisherType.new nextTag) }
  if nextTag < 0 then
    (self, Except.error (JsErr.error "Invalid publisher ID, got unexpected type"))
  else
    let self := { self with publisherID := decoder.readBinaryDTagElement nextTag }
    match self.publisherID with
    | none =>
        (self, Except.error (JsErr.contentDecodingException
          ("Cannot parse publisher ID of type : " ++ toString nextTag ++ ".")))
    | some _ => (self, Except.ok ())

/-- `PublisherID.prototype.validate`: the body is
`return null != id() && null != type();` and the helper functions `id` and
`type` are not defined anywhere in the module scope, so evaluating `id()`
raises a ReferenceError before anything else happens. -/
def PublisherID.validate (_self : PublisherID) : Except JsErr Bool :=
  Except.error (JsErr.referenceError "id is not defined")

/-- `PublisherID.prototype.getElementLabel`: `this.publisherType.Tag`; on a
null `publisherType` the property access raises a TypeError. -/
def PublisherID.getElementLabel (self : PublisherID) : Except JsErr Int :=
  match self.publisherType with
  | some pt => Except.ok pt.Tag
  | none => Except.error (JsErr.typeError "Cannot read property Tag of null")

/-- `PublisherID.prototype.to_ndnb(encoder)`: call `validate`; on a falsy
result build the error message (which itself calls the undefined
`this.getClass()` and would raise a TypeError); otherwise write one tagged
binary element. Because `validate` always raises, the branches after it are
unreachable but are kept to mirror the source. -/
def PublisherID.to_ndnb (self : PublisherID) (encoder : BinaryXMLEncoder) :
    BinaryXMLEncoder × Except JsErr Unit :=
  match self.validate with
  | Except.error e => (encoder, Except.error e)
  | Except.ok ok =>
    if !ok then
      (encoder, Except.error (JsErr.typeError "this.getClass is not a function"))
    else
      match self.getElementLabel, self.publisherID with
      | Except.ok tag, some bytes =>
          (encoder.writeDTagElement tag bytes, Except.ok ())
      | Except.error e, _ => (encoder, Except.error e)
      | _, none =>
          (encoder, Except.error (JsErr.typeError "writeDTagElement of null"))

/-- Modelled from the spec: the intended validation is the non-null check
`null != this.publisherID && null != this.publisherType` (spec section 9
names this non-null invariant as the intended contract; the shipped
`validate` calls undefined helpers instead). -/
def PublisherID.validateIntended (self : PublisherID) : Bool :=
  self.publisherID.isSome && self.publisherType.isSome

/-- Modelled from the spec: `to_ndnb` as intended, with the repaired
validation; on success it writes one tagged binary element whose tag is the
variant tag and whose payload is the digest bytes. -/
def PublisherID.to_ndnbIntended (self : PublisherID) (encoder : BinaryXMLEncoder) :
    BinaryXMLEncoder × Except JsErr Unit :=
  if !self.validateIntended then
    (encoder, Except.error (JsErr.error "Cannot encode PublisherID: field values missing."))
  else
    match self.publisherType, self.publisherID with
    | some pt, some bytes => (encoder.writeDTagElement pt.Tag bytes, Except.ok ())
    | _, _ => (encoder, Except.error (JsErr.error "unreachable"))

/-- A decoder positioned at a single tagged binary element: peeking succeeds
exactly on the element tag, and reading that tag returns the payload. -/
def decoderOfElement (tag : Int) (payload : List Nat) : BinaryXMLDecoder :=
  ⟨fun t => t == tag, fun t => if t == tag then some payload else none⟩

/-- Modelled from the spec: the key-type enum (`KeyType` from
`security/security-types.js`, not under src/); the verifier distinguishes
RSA, elliptic-curve, and any other key type. -/
inductive KeyType where
  | RSA
  | ECDSA
  | AES
deriving DecidableEq

/-- Modelled from the spec: the digest-algorithm enum value
(`DigestAlgorithm.SHA256` from `security/security-types.js`, not under
src/); only SHA-256 is supported. -/
def DigestAlgorithm.SHA256 : Int := 1

/-- The public-key capability consumed by the verifier (spec section 6):
a key type and the DER bytes. -/
structure PublicKey where
  keyType : KeyType
  keyDer : List Nat
deriving DecidableEq

/-- A buffer-valued argument: either a plain byte Buffer or a Blob wrapper;
`buf` unwraps a Blob exactly as `x.buf()` does. -/
inductive BufArg where
  | buffer (bytes : List Nat)
  | blob (bytes : List Nat)
deriving DecidableEq

/-- Unwrap a Blob to its bytes; a plain Buffer is already bytes. -/
def BufArg.buf : BufArg → List Nat
  | BufArg.buffer b => b
  | BufArg.blob b => b

/-- The publicKey argument of `verifySignaturePromise`: either an already
constructed PublicKey object, or raw DER bytes still to be parsed. -/
inductive PublicKeyArg where
  | key (pk : PublicKey)
  | der (d : BufArg)

/-- The digestAlgorithm argument as a dynamically typed JavaScript value:
a number, a boolean (the caller actually passed useSync in its place), or
omitted (undefined). -/
inductive DigestAlgArg where
  | num (n : Int)
  | boolVal (b : Bool)
  | undefinedVal
deriving DecidableEq

/-- The signature value handed to the underlying verifier: either the raw
bytes, or the bytes converted to a binary string (when the cached
capability flag says the backend wants a string). -/
inductive SigArg where
  | bytes (s : List Nat)
  | binaryString (s : List Nat)
deriving DecidableEq

/-- The deferred result returned by `verifySignaturePromise`: an already
resolved SyncPromise carrying a boolean, an already rejected SyncPromise
carrying an error message, or delegation to the asynchronous subtle-crypto
engine whose eventual resolution or rejection is the engine result. -/
inductive VerifyOutcome where
  | syncResolve (b : Bool)
  | syncReject (msg : String)
  | asyncEngine (r : Except String Bool)

/-- The platform capabilities consumed by the verifier: the PublicKey
constructor on DER bytes (may throw), the subtle-crypto availability test,
the subtle-crypto import-then-verify chain, base64 encoding of bytes, the
synchronous RSA-SHA256 and generic SHA-256 verifiers (both may throw), and
the one backend bit probed by `setVerifyUsesString_` (whether
`Crypto.createHash` with sha256 digests to a string). -/
structure CryptoEnv where
  parsePublicKey : List Nat → Except String PublicKey
  useSubtleCrypto : Bool
  subtleImportAndVerify : List Nat → List Nat → List Nat → Except String Bool
  toBase64 : List Nat → String
  rsaShaVerify : String → List Nat → SigArg → Except String Bool
  ecdsaShaVerify : String → List Nat → SigArg → Except String Bool
  hashDigestIsString : Bool

/-- The initial value of the static field
`VerificationHelpers.verifyUsesString_`: null. -/
def initialVerifyUsesString : Option Bool := none

/-- `VerificationHelpers.setVerifyUsesString_`: probe whether the
sha256 hash digest of the backend is a string; a fixed property of the
cryptographic backend, so re-running the probe yields the same bit. -/
def setVerifyUsesString (env : CryptoEnv) : Option Bool :=
  some env.hashDigestIsString

/-- The PEM line chunking loop of the source: take 64 characters of the
base64 text at a time, each followed by a newline. -/
def pemLines : List Char → String
  | [] => ""
  | c :: cs =>
    String.mk ((c :: cs).take 64) ++ "\n" ++ pemLines ((c :: cs).drop 64)
termination_by cs => cs.length
decreasing_by
  simp only [List.length_drop, List.length_cons]
  omega

/-- Reformat a base64-encoded key as PEM: standard public-key header, the
64-character chunked base64 lines, standard footer. -/
def formatPublicKeyPem (keyBase64 : String) : String :=
  "-----BEGIN PUBLIC KEY-----\n" ++ pemLines keyBase64.data
    ++ "-----END PUBLIC KEY-----"

/-- `VerificationHelpers.verifySignaturePromise` from
verification-helpers.js, with the process-wide `verifyUsesString_` static
field passed in and returned explicitly. The outer `Except JsErr` is the
synchronous-throw channel of the JavaScript call: a value `Except.ok`
means the call returned a deferred result without throwing. -/
def VerificationHelpers.verifySignaturePromise
    (buffer0 signature0 : BufArg) (publicKey0 : PublicKeyArg)
    (digestAlgorithm0 : DigestAlgArg) (useSync0 : Bool)
    (env : CryptoEnv) (verifyUsesString : Option Bool) :
    Except JsErr (VerifyOutcome × Option Bool) :=
  let shifted :=
    match digestAlgorithm0 with
    | DigestAlgArg.boolVal b => (DigestAlgArg.undefinedVal, b)
    | d => (d, useSync0)
  let digestAlgorithm1 := shifted.1
  let useSync := shifted.2
  let buffer := buffer0.buf
  let signature := signature0.buf
  let pkResult : Except String PublicKey :=
    match publicKey0 with
    | PublicKeyArg.key pk => Except.ok pk
    | PublicKeyArg.der d => env.parsePublicKey d.buf
  match pkResult with
  | Except.error ex =>
      Except.ok (VerifyOutcome.syncReject
        ("verifySignature: Error decoding public key DER: " ++ ex),
        verifyUsesString)
  | Except.ok publicKey =>
    let digestAlgorithm :=
      match digestAlgorithm1 with
      | DigestAlgArg.undefinedVal => DigestAlgArg.num DigestAlgorithm.SHA256
      | d => d
    if digestAlgorithm = DigestAlgArg.num DigestAlgorithm.SHA256 then
      if publicKey.keyType = KeyType.RSA then
        if env.useSubtleCrypto && !useSync then
          Except.ok (VerifyOutcome.asyncEngine
            (env.subtleImportAndVerify publicKey.keyDer signature buffer),
            verifyUsesString)
        else
          let vus :=
            match verifyUsesString with
            | none => setVerifyUsesString env
            | some b => some b
          let keyPem := formatPublicKeyPem (env.toBase64 publicKey.keyDer)
          let signatureBytes :=
            if vus.getD false then SigArg.binaryString signature
            else SigArg.bytes signature
          match env.rsaShaVerify keyPem buffer signatureBytes with
          | Except.ok b => Except.ok (VerifyOutcome.syncResolve b, vus)
          | Except.error ex =>
              Except.ok (VerifyOutcome.syncReject
                ("verifySignature: Error is RSA verify: " ++ ex), vus)
      else if publicKey.keyType = KeyType.ECDSA then
        let vus :=
          match verifyUsesString with
          | none => setVerifyUsesString env
          | some b => some b
        let keyPem := formatPublicKeyPem (env.toBase64 publicKey.keyDer)
        let signatureBytes :=
          if vus.getD false then SigArg.binaryString signature
          else SigArg.bytes signature
        match env.ecdsaShaVerify keyPem buffer signatureBytes with
        | Except.ok b => Except.ok (VerifyOutcome.syncResolve b, vus)
        | Except.error ex =>
            Except.ok (VerifyOutcome.syncReject
              ("verifySignature: Error is ECDSA verify: " ++ ex), vus)
      else
        Except.ok (VerifyOutcome.syncReject "verifySignature: Invalid key type",
          verifyUsesString)
    else
      Except.ok (VerifyOutcome.syncReject "verifySignature: Invalid digest algorithm",
        verifyUsesString)

/-- How a publicKey argument resolves to a PublicKey object: an object
argument is itself, DER bytes must parse to it. -/
def PublicKeyArg.resolvesTo (arg : PublicKeyArg) (env : CryptoEnv)
    (pk : PublicKey) : Prop :=
  match arg with
  | PublicKeyArg.key k => k = pk
  | PublicKeyArg.der d => env.parsePublicKey d.buf = Except.ok pk

/-- A concrete environment fixture used by the witnesses: parsing always
succeeds, subtle crypto is unavailable, the synchronous RSA verifier says
false, the ECDSA verifier says true, digests are buffers. -/
def sampleEnv : CryptoEnv :=
  { parsePublicKey := fun d => Except.ok ⟨KeyType.RSA, d⟩
    useSubtleCrypto := false
    subtleImportAndVerify := fun _ _ _ => Except.ok true
    toBase64 := fun _ => "QUJD"
    rsaShaVerify := fun _ _ _ => Except.ok false
    ecdsaShaVerify := fun _ _ _ => Except.ok true
    hashDigestIsString := false }

/-- A second environment fixture whose key parsing fails. -/
def failParseEnv : CryptoEnv :=
  { sampleEnv with parsePublicKey := fun _ => Except.error "bad DER" }

/-- A third environment fixture with the subtle-crypto engine available. -/
def subtleEnv : CryptoEnv :=
  { sampleEnv with useSubtleCrypto := true }

/-- C2: `peekAndGetNextDTag` probes the four identifier tags in exactly the
fixed order KEY, CERTIFICATE, ISSUER_KEY, ISSUER_CERTIFICATE and returns
the first tag whose peek succeeds; when several tags would match, the
earliest in that order wins, and when none matches the result is the
sentinel -1. -/
theorem peekAndGetNextDTag_first_match (decoder : BinaryXMLDecoder) :
    PublisherID.peekAndGetNextDTag decoder
      = (publisherIDProbeOrder.find? decoder.peekDTag).getD (-1) := by
  unfold PublisherID.peekAndGetNextDTag publisherIDProbeOrder
  cases h1 : decoder.peekDTag NDNProtocolDTags.PublisherPublicKeyDigest <;>
    cases h2 : decoder.peekDTag NDNProtocolDTags.PublisherCertificateDigest <;>
      cases h3 : decoder.peekDTag NDNProtocolDTags.PublisherIssuerKeyDigest <;>
        cases h4 : decoder.peekDTag NDNProtocolDTags.PublisherIssuerCertificateDigest <;>
          simp [List.find?, h1, h2, h3, h4]

/-- C5: when none of the four identifier tags matches the decoder state,
`from_ndnb` fails with the malformed-element error and never consults the
payload-reading capability: the result is the same for every
`readBinaryDTagElement` function. -/
theorem from_ndnb_no_match_malformed (self : PublisherID)
    (peek : Int → Bool) (read : Int → Option (List Nat))
    (h1 : peek NDNProtocolDTags.PublisherPublicKeyDigest = false)
    (h2 : peek NDNProtocolDTags.PublisherCertificateDigest = false)
    (h3 : peek NDNProtocolDTags.PublisherIssuerKeyDigest = false)
    (h4 : peek NDNProtocolDTags.PublisherIssuerCertificateDigest = false) :
    (self.from_ndnb ⟨peek, read⟩).2
      = Except.error (JsErr.error "Invalid publisher ID, got unexpected type") := by
  unfold PublisherID.from_ndnb PublisherID.peekAndGetNextDTag
  simp [h1, h2, h3, h4]

/-- Witness for C5 at a decoder whose peeks all fail. -/
theorem from_ndnb_no_match_malformed_witness :
    ((PublisherID.new).from_ndnb ⟨fun _ => false, fun _ => none⟩).2
      = Except.error (JsErr.error "Invalid publisher ID, got unexpected type") :=
  from_ndnb_no_match_malformed PublisherID.new (fun _ => false) (fun _ => none)
    rfl rfl rfl rfl

/-- C10: `from_ndnb` is not atomic on failure: under the same no-match
hypothesis the returned object already carries a `PublisherType` whose tag
is the sentinel -1, even though the operation fails. -/
theorem from_ndnb_no_match_overwrites_publisherType (self : PublisherID)
    (peek : Int → Bool) (read : Int → Option (List Nat))
    (h1 : peek NDNProtocolDTags.PublisherPublicKeyDigest = false)
    (h2 : peek NDNProtocolDTags.PublisherCertificateDigest = false)
    (h3 : peek NDNProtocolDTags.PublisherIssuerKeyDigest = false)
    (h4 : peek NDNProtocolDTags.PublisherIssuerCertificateDigest = false) :
    (self.from_ndnb ⟨peek, read⟩).1.publisherType
        = some (PublisherType.new (-1))
      ∧ (self.from_ndnb ⟨peek, read⟩).2 ≠ Except.ok () := by
  unfold PublisherID.from_ndnb PublisherID.peekAndGetNextDTag
  simp [h1, h2, h3, h4]

/-- Witness for C10: a value that held a real variant tag before the failed
decode ends up with the sentinel tag. -/
theorem from_ndnb_no_match_overwrites_publisherType_witness :
    ((PublisherID.mk (some [1, 2]) (some (PublisherType.new 60))).from_ndnb
        ⟨fun _ => false, fun _ => some []⟩).1.publisherType
      = some (PublisherType.new (-1)) :=
  (from_ndnb_no_match_overwrites_publisherType
    (PublisherID.mk (some [1, 2]) (some (PublisherType.new 60)))
    (fun _ => false) (fun _ => some []) rfl rfl rfl rfl).1

/-- C1 (code bug): evaluating the code at a well-formed identifier value
(KEY variant tag, 32 digest bytes): `to_ndnb` raises the ReferenceError
coming from the broken `validate` (which calls the undefined helper `id`)
and writes no element, so `from_ndnb` after `to_ndnb` can never reproduce
the value; the intended round-trip is proved separately against the
repaired validation in `roundTrip_intended_encode`. -/
theorem to_ndnb_valid_value_raises_referenceError :
    PublisherID.to_ndnb
        ⟨some (List.replicate 32 0),
         some (PublisherType.new NDNProtocolDTags.PublisherPublicKeyDigest)⟩
        ⟨[]⟩
      = (⟨[]⟩, Except.error (JsErr.referenceError "id is not defined")) := rfl

/-- C3 (code bug): evaluating the code at the value with null tag and null
digest bytes: `to_ndnb` does write nothing, but it fails with the
ReferenceError raised by the broken `validate`, not with the intended
InvalidState error about missing field values. -/
theorem to_ndnb_null_fields_raises_referenceError :
    PublisherID.to_ndnb PublisherID.new ⟨[]⟩
      = (⟨[]⟩, Except.error (JsErr.referenceError "id is not defined")) := rfl

/-- Supporting theorem (not itself a claim): with the repaired validation of
spec section 9, encoding a value that carries one of the four variant tags
and then decoding the produced wire element reproduces the tag and the
digest bytes, for every payload. This shows the round-trip claim holds up
to the `validate` slip. -/
theorem roundTrip_intended_encode (bytes : List Nat) (tag : Int)
    (htag : tag ∈ publisherIDProbeOrder) :
    PublisherID.to_ndnbIntended ⟨some bytes, some (PublisherType.new tag)⟩ ⟨[]⟩
        = (⟨[(tag, bytes)]⟩, Except.ok ())
      ∧ (PublisherID.new).from_ndnb (decoderOfElement tag bytes)
        = (⟨some bytes, some (PublisherType.new tag)⟩, Except.ok ()) := by
  fin_cases htag <;>
    exact ⟨rfl, rfl⟩

/-- Witness for the supporting round-trip theorem at the ISSUER_KEY tag. -/
theorem roundTrip_intended_encode_witness :
    PublisherID.to_ndnbIntended
          ⟨some [7, 7], some (PublisherType.new 61)⟩ ⟨[]⟩
        = (⟨[(61, [7, 7])]⟩, Except.ok ())
      ∧ (PublisherID.new).from_ndnb (decoderOfElement 61 [7, 7])
        = (⟨some [7, 7], some (PublisherType.new 61)⟩, Except.ok ()) :=
  roundTrip_intended_encode [7, 7] 61 (by decide)

/-- Helper: with the subtle-crypto capability available and synchronous
execution not requested, an RSA key delegates to the asynchronous engine
and the capability flag is left untouched. -/
theorem verify_rsa_async_eq (buffer sig : BufArg) (der : List Nat)
    (env : CryptoEnv) (st : Option Bool) (hs : env.useSubtleCrypto = true) :
    VerificationHelpers.verifySignaturePromise buffer sig
        (PublicKeyArg.key ⟨KeyType.RSA, der⟩) DigestAlgArg.undefinedVal false env st
      = Except.ok (VerifyOutcome.asyncEngine
          (env.subtleImportAndVerify der sig.buf buffer.buf), st) := by
  unfold VerificationHelpers.verifySignaturePromise
  simp [hs]

/-- Helper: on the synchronous RSA path (capability off, or synchronous
execution requested) the verifier reduces to the PEM reformat plus the
synchronous RSA verifier, and the capability flag ends up set to the
backend bit. -/
theorem verify_rsa_sync_eq (buffer sig : BufArg) (der : List Nat) (u : Bool)
    (env : CryptoEnv) (st : Option Bool)
    (hpath : (env.useSubtleCrypto && !u) = false) :
    VerificationHelpers.verifySignaturePromise buffer sig
        (PublicKeyArg.key ⟨KeyType.RSA, der⟩) DigestAlgArg.undefinedVal u env st
      = (match env.rsaShaVerify (formatPublicKeyPem (env.toBase64 der)) buffer.buf
            (if st.getD env.hashDigestIsString then SigArg.binaryString sig.buf
             else SigArg.bytes sig.buf) with
         | Except.ok b =>
             Except.ok (VerifyOutcome.syncResolve b,
               some (st.getD env.hashDigestIsString))
         | Except.error ex =>
             Except.ok (VerifyOutcome.syncReject
               ("verifySignature: Error is RSA verify: " ++ ex),
               some (st.getD env.hashDigestIsString))) := by
  unfold VerificationHelpers.verifySignaturePromise setVerifyUsesString
  cases st <;> simp [hpath]

/-- Helper: an ECDSA key always takes the synchronous PEM path, for every
capability value and execution preference, and the capability flag ends up
set to the backend bit. -/
theorem verify_ecdsa_sync_eq (buffer sig : BufArg) (der : List Nat) (u : Bool)
    (env : CryptoEnv) (st : Option Bool) :
    VerificationHelpers.verifySignaturePromise buffer sig
        (PublicKeyArg.key ⟨KeyType.ECDSA, der⟩) DigestAlgArg.undefinedVal u env st
      = (match env.ecdsaShaVerify (formatPublicKeyPem (env.toBase64 der)) buffer.buf
            (if st.getD env.hashDigestIsString then SigArg.binaryString sig.buf
             else SigArg.bytes sig.buf) with
         | Except.ok b =>
             Except.ok (VerifyOutcome.syncResolve b,
               some (st.getD env.hashDigestIsString))
         | Except.error ex =>
             Except.ok (VerifyOutcome.syncReject
               ("verifySignature: Error is ECDSA verify: " ++ ex),
               some (st.getD env.hashDigestIsString))) := by
  unfold VerificationHelpers.verifySignaturePromise setVerifyUsesString
  cases st <;> simp

/-- Helper: a key that is neither RSA nor ECDSA is rejected with the invalid
key type message and the capability flag is left untouched. -/
theorem verify_other_key_eq (buffer sig : BufArg) (der : List Nat) (u : Bool)
    (env : CryptoEnv) (st : Option Bool) :
    VerificationHelpers.verifySignaturePromise buffer sig
        (PublicKeyArg.key ⟨KeyType.AES, der⟩) DigestAlgArg.undefinedVal u env st
      = Except.ok (VerifyOutcome.syncReject "verifySignature: Invalid key type", st) := by
  unfold VerificationHelpers.verifySignaturePromise
  simp

/-- C6: whenever the digestAlgorithm argument is supplied as a number other
than SHA-256, the call is rejected with the invalid digest algorithm
message, for every key that resolves to a PublicKey of any type, and the
capability flag is untouched: the key-type decision tree is never
entered. -/
theorem verify_wrong_digest_rejected (buffer sig : BufArg) (arg : PublicKeyArg)
    (pk : PublicKey) (n : Int) (u : Bool) (env : CryptoEnv) (st : Option Bool)
    (hk : arg.resolvesTo env pk) (hn : n ≠ DigestAlgorithm.SHA256) :
    VerificationHelpers.verifySignaturePromise buffer sig arg
        (DigestAlgArg.num n) u env st
      = Except.ok (VerifyOutcome.syncReject
          "verifySignature: Invalid digest algorithm", st) := by
  have hn1 : ¬(DigestAlgArg.num n = DigestAlgArg.num DigestAlgorithm.SHA256) := by
    simpa using hn
  cases arg with
  | key k =>
      unfold VerificationHelpers.verifySignaturePromise
      simp [hn1]
  | der d =>
      unfold PublicKeyArg.resolvesTo at hk
      unfold VerificationHelpers.verifySignaturePromise
      simp [hk, hn1]

/-- Witness for C6 at an ECDSA key and digest algorithm 2. -/
theorem verify_wrong_digest_rejected_witness :
    VerificationHelpers.verifySignaturePromise (BufArg.buffer [1]) (BufArg.buffer [2])
        (PublicKeyArg.key ⟨KeyType.ECDSA, [3]⟩) (DigestAlgArg.num 2) false sampleEnv none
      = Except.ok (VerifyOutcome.syncReject
          "verifySignature: Invalid digest algorithm", none) :=
  verify_wrong_digest_rejected (BufArg.buffer [1]) (BufArg.buffer [2])
    (PublicKeyArg.key ⟨KeyType.ECDSA, [3]⟩) ⟨KeyType.ECDSA, [3]⟩ 2 false sampleEnv none
    rfl (by decide)

/-- C7: the verifier delegates to the asynchronous engine exactly when the
key type is RSA, the subtle-crypto capability is available, and synchronous
execution was not requested; an ECDSA key always takes the synchronous PEM
path and never produces the asynchronous outcome, whatever the capability
and preference; any other key type is rejected with the invalid key type
message. -/
theorem verify_keytype_dispatch (buffer sig : BufArg) (pk : PublicKey) (u : Bool)
    (env : CryptoEnv) (st : Option Bool) :
    (pk.keyType = KeyType.RSA →
      ((env.useSubtleCrypto = true ∧ u = false) ↔
        VerificationHelpers.verifySignaturePromise buffer sig (PublicKeyArg.key pk)
            DigestAlgArg.undefinedVal u env st
          = Except.ok (VerifyOutcome.asyncEngine
              (env.subtleImportAndVerify pk.keyDer sig.buf buffer.buf), st)))
    ∧ (pk.keyType = KeyType.ECDSA →
        ∀ (r : Except String Bool) (stf : Option Bool),
          VerificationHelpers.verifySignaturePromise buffer sig (PublicKeyArg.key pk)
              DigestAlgArg.undefinedVal u env st
            ≠ Except.ok (VerifyOutcome.asyncEngine r, stf))
    ∧ (pk.keyType ≠ KeyType.RSA → pk.keyType ≠ KeyType.ECDSA →
        VerificationHelpers.verifySignaturePromise buffer sig (PublicKeyArg.key pk)
            DigestAlgArg.undefinedVal u env st
          = Except.ok (VerifyOutcome.syncReject
              "verifySignature: Invalid key type", st)) := by
  obtain ⟨kt, der⟩ := pk
  refine ⟨?_, ?_, ?_⟩
  · intro hty
    cases hty
    constructor
    · rintro ⟨hs, hu⟩
      cases hu
      exact verify_rsa_async_eq buffer sig der env st hs
    · intro heq
      by_cases hs : env.useSubtleCrypto = true
      · by_cases hu : u = true
        · exfalso
          rw [verify_rsa_sync_eq buffer sig der u env st (by simp [hu])] at heq
          split at heq <;> simp at heq
        · exact ⟨hs, by simpa using hu⟩
      · exfalso
        have hs0 : env.useSubtleCrypto = false := by simpa using hs
        rw [verify_rsa_sync_eq buffer sig der u env st (by simp [hs0])] at heq
        split at heq <;> simp at heq
  · intro hty
    cases hty
    intro r stf heq
    rw [verify_ecdsa_sync_eq buffer sig der u env st] at heq
    split at heq <;> simp at heq
  · intro h1 h2
    cases kt with
    | RSA => exact absurd rfl h1
    | ECDSA => exact absurd rfl h2
    | AES => exact verify_other_key_eq buffer sig der u env st

/-- Witness for C7: the RSA asynchronous delegation fires with the subtle
capability available, and an AES key is rejected. -/
theorem verify_keytype_dispatch_witness :
    (VerificationHelpers.verifySignaturePromise (BufArg.buffer [1]) (BufArg.buffer [2])
        (PublicKeyArg.key ⟨KeyType.RSA, [3]⟩) DigestAlgArg.undefinedVal false subtleEnv none
      = Except.ok (VerifyOutcome.asyncEngine (Except.ok true), none))
    ∧ (VerificationHelpers.verifySignaturePromise (BufArg.buffer [1]) (BufArg.buffer [2])
        (PublicKeyArg.key ⟨KeyType.AES, [4]⟩) DigestAlgArg.undefinedVal false sampleEnv none
      = Except.ok (VerifyOutcome.syncReject "verifySignature: Invalid key type", none)) :=
  ⟨((verify_keytype_dispatch (BufArg.buffer [1]) (BufArg.buffer [2])
      ⟨KeyType.RSA, [3]⟩ false subtleEnv none).1 rfl).mp ⟨rfl, rfl⟩,
   (verify_keytype_dispatch (BufArg.buffer [1]) (BufArg.buffer [2])
      ⟨KeyType.AES, [4]⟩ false sampleEnv none).2.2 (by decide) (by decide)⟩

/-- C4: the verifier never throws synchronously: every call returns a
deferred result through the ok channel; an unparsable key argument is
surfaced as a rejected deferred result with the decoding error message; an
exception of the underlying synchronous primitive is surfaced as a rejected
deferred result with the engine error message; and a wrong but well-formed
signature (the primitive returns false) resolves normally with false. -/
theorem verify_never_throws :
    (∀ (buffer sig : BufArg) (arg : PublicKeyArg) (dig : DigestAlgArg) (u : Bool)
        (env : CryptoEnv) (st : Option Bool),
      ∃ r, VerificationHelpers.verifySignaturePromise buffer sig arg dig u env st
        = Except.ok r)
    ∧ (∀ (buffer sig d : BufArg) (u : Bool) (env : CryptoEnv) (st : Option Bool)
          (ex : String),
        env.parsePublicKey d.buf = Except.error ex →
        VerificationHelpers.verifySignaturePromise buffer sig (PublicKeyArg.der d)
            DigestAlgArg.undefinedVal u env st
          = Except.ok (VerifyOutcome.syncReject
              ("verifySignature: Error decoding public key DER: " ++ ex), st))
    ∧ (∀ (buffer sig : BufArg) (der : List Nat) (env : CryptoEnv) (st : Option Bool)
          (ex : String),
        env.rsaShaVerify (formatPublicKeyPem (env.toBase64 der)) buffer.buf
            (if st.getD env.hashDigestIsString then SigArg.binaryString sig.buf
             else SigArg.bytes sig.buf) = Except.error ex →
        VerificationHelpers.verifySignaturePromise buffer sig
            (PublicKeyArg.key ⟨KeyType.RSA, der⟩) DigestAlgArg.undefinedVal true env st
          = Except.ok (VerifyOutcome.syncReject
              ("verifySignature: Error is RSA verify: " ++ ex),
              some (st.getD env.hashDigestIsString)))
    ∧ (∀ (buffer sig : BufArg) (der : List Nat) (env : CryptoEnv) (st : Option Bool),
        env.rsaShaVerify (formatPublicKeyPem (env.toBase64 der)) buffer.buf
            (if st.getD env.hashDigestIsString then SigArg.binaryString sig.buf
             else SigArg.bytes sig.buf) = Except.ok false →
        VerificationHelpers.verifySignaturePromise buffer sig
            (PublicKeyArg.key ⟨KeyType.RSA, der⟩) DigestAlgArg.undefinedVal true env st
          = Except.ok (VerifyOutcome.syncResolve false,
              some (st.getD env.hashDigestIsString))) := by
  refine ⟨?_, ?_, ?_, ?_⟩
  · intro buffer sig arg dig u env st
    simp only [VerificationHelpers.verifySignaturePromise]
    repeat' split
    all_goals exact ⟨_, rfl⟩
  · intro buffer sig d u env st ex hex
    unfold VerificationHelpers.verifySignaturePromise
    simp [hex]
  · intro buffer sig der env st ex hex
    rw [verify_rsa_sync_eq buffer sig der true env st (by simp), hex]
  · intro buffer sig der env st hok
    rw [verify_rsa_sync_eq buffer sig der true env st (by simp), hok]

/-- Witness for C4: a failing key parse is rejected through the deferred
channel, and a false answer of the primitive resolves with false. -/
theorem verify_never_throws_witness :
    (VerificationHelpers.verifySignaturePromise (BufArg.buffer []) (BufArg.blob [])
        (PublicKeyArg.der (BufArg.buffer [0])) DigestAlgArg.undefinedVal false
        failParseEnv none
      = Except.ok (VerifyOutcome.syncReject
          ("verifySignature: Error decoding public key DER: " ++ "bad DER"), none))
    ∧ (VerificationHelpers.verifySignaturePromise (BufArg.buffer [5]) (BufArg.buffer [6])
        (PublicKeyArg.key ⟨KeyType.RSA, [7]⟩) DigestAlgArg.undefinedVal true
        sampleEnv none
      = Except.ok (VerifyOutcome.syncResolve false, some false)) :=
  ⟨verify_never_throws.2.1 (BufArg.buffer []) (BufArg.blob []) (BufArg.buffer [0])
      false failParseEnv none "bad DER" rfl,
   verify_never_throws.2.2.2 (BufArg.buffer [5]) (BufArg.buffer [6]) [7]
      sampleEnv none rfl⟩

/-- C8: the process-wide capability flag starts unset; a call that finds it
set returns it unchanged without re-probing; a call that finds it unset
either leaves it unset (the synchronous path was not reached) or sets it to
the single backend bit the probe computes; and the probe itself is a pure
function of the backend, so re-running it yields the same value. -/
theorem verify_flag_probed_once :
    (∀ (buffer sig : BufArg) (arg : PublicKeyArg) (dig : DigestAlgArg) (u : Bool)
        (env : CryptoEnv) (b : Bool),
      ∃ out, VerificationHelpers.verifySignaturePromise buffer sig arg dig u env (some b)
        = Except.ok (out, some b))
    ∧ (∀ (buffer sig : BufArg) (arg : PublicKeyArg) (dig : DigestAlgArg) (u : Bool)
        (env : CryptoEnv),
      (∃ out, VerificationHelpers.verifySignaturePromise buffer sig arg dig u env none
        = Except.ok (out, none))
      ∨ (∃ out, VerificationHelpers.verifySignaturePromise buffer sig arg dig u env none
        = Except.ok (out, some env.hashDigestIsString)))
    ∧ initialVerifyUsesString = none
    ∧ (∀ env : CryptoEnv, setVerifyUsesString env = some env.hashDigestIsString) := by
  refine ⟨?_, ?_, rfl, fun _ => rfl⟩
  · intro buffer sig arg dig u env b
    simp only [VerificationHelpers.verifySignaturePromise]
    repeat' split
    all_goals exact ⟨_, rfl⟩
  · intro buffer sig arg dig u env
    simp only [VerificationHelpers.verifySignaturePromise, setVerifyUsesString]
    repeat' split
    all_goals first
      | exact Or.inl ⟨_, rfl⟩
      | exact Or.inr ⟨_, rfl⟩

/-- C9: a boolean passed in the digestAlgorithm position is shifted into the
useSync argument and the digest algorithm defaults to SHA-256: the call
behaves exactly like the call with SHA-256 and that boolean, whatever value
the original useSync argument had. -/
theorem verify_boolean_digest_shift (buffer sig : BufArg) (arg : PublicKeyArg)
    (b u : Bool) (env : CryptoEnv) (st : Option Bool) :
    VerificationHelpers.verifySignaturePromise buffer sig arg
        (DigestAlgArg.boolVal b) u env st
      = VerificationHelpers.verifySignaturePromise buffer sig arg
        (DigestAlgArg.num DigestAlgorithm.SHA256) b env st := rfl

end NdnJs
